import Mathlib

/-!
Shallow embedding of `src/content/templates/start-vllm-server.py`.

The script has two steps:
1. `register_tt_models`: inside the function, `from vllm import ModelRegistry`
   (which may fail), then a single call
   `ModelRegistry.register_model("TTLlamaForCausalLM",
   "models.tt_transformers.tt.generator_vllm:LlamaForCausalLM")`,
   then `print("✓ Registered Tenstorrent models with vLLM")`.
2. `runpy.run_module("vllm.entrypoints.openai.api_server", run_name="__main__")`,
   which runs the external entrypoint under the name `__main__`; that module
   reads the process-global `sys.argv` itself.

The external world is a parameter `ExtEnv`: whether the `vllm` import
succeeds, and whether a given `register_model` call raises.  Process state
(`PState`) carries the process argument vector `sys.argv`, the process
environment `os.environ`, the external registry's table, the standard output
stream, and a trace of observable events (registration calls, printed lines,
module launches).  A step returns the updated state together with
`Option PyErr`: `some err` models an exception propagating out of the step
with the state as it was at the point of the raise.
-/

namespace StartVllmServer

/-- Exceptions that can propagate out of the script's own code. -/
inductive PyErr where
  | importError
  | registerError (name path : String)
deriving DecidableEq

/-- Observable events of a run: a `ModelRegistry.register_model` call, a line
printed to standard output, and a `runpy.run_module` launch recording the
module name, the `run_name`, and the argument vector the launched module
observes via `sys.argv`. -/
inductive Event where
  | registerCall (name path : String)
  | printed (line : String)
  | launch (moduleName runName : String) (argvSeen : List String)
deriving DecidableEq

/-- Is this event a `register_model` call? -/
def Event.isRegisterCall : Event → Bool
  | .registerCall _ _ => true
  | _ => false

/-- Is this event a `runpy.run_module` launch? -/
def Event.isLaunch : Event → Bool
  | .launch _ _ _ => true
  | _ => false

/-- Process state: `sys.argv`, `os.environ`, the external registry's table
(most recent registration first, so `List.lookup` returns the latest entry
for a name), the standard output lines, and the event trace. -/
structure PState where
  argv : List String
  osEnv : List (String × String)
  registry : List (String × String)
  stdout : List String
  events : List Event
deriving DecidableEq

/-- Behaviour of the external world: whether `from vllm import ModelRegistry`
succeeds, and whether `ModelRegistry.register_model name path` raises. -/
structure ExtEnv where
  importOk : Bool
  registerRaises : String → String → Bool

/-- The process state at interpreter start, before any script code runs. -/
def initState (argv : List String) (osEnv : List (String × String)) : PState :=
  { argv := argv, osEnv := osEnv, registry := [], stdout := [], events := [] }

/-- The model name registered by the script (source line 35). -/
def ttModelName : String := "TTLlamaForCausalLM"

/-- The class path registered by the script (source line 36). -/
def ttModelPath : String := "models.tt_transformers.tt.generator_vllm:LlamaForCausalLM"

/-- The script's hardcoded list of registration entries: exactly one
(name, class-path) pair. -/
def tt_model_entries : List (String × String) := [(ttModelName, ttModelPath)]

/-- The confirmation line printed on success (source line 43). -/
def confirmationLine : String := "✓ Registered Tenstorrent models with vLLM"

/-- The external entrypoint module run by the launcher (source line 54). -/
def apiServerModule : String := "vllm.entrypoints.openai.api_server"

/-- `ModelRegistry.register_model name path`: the call itself is recorded as
an event; if the external registry raises, the error propagates and the
table is unchanged, otherwise the pair is added to the table. -/
def registerModel (e : ExtEnv) (name path : String) (s : PState) :
    PState × Option PyErr :=
  let s1 : PState := { s with events := s.events ++ [Event.registerCall name path] }
  if e.registerRaises name path then
    (s1, some (PyErr.registerError name path))
  else
    ({ s1 with registry := (name, path) :: s1.registry }, none)

/-- `print line`: appends one line to standard output and records the event. -/
def printLine (line : String) (s : PState) : PState :=
  { s with stdout := s.stdout ++ [line], events := s.events ++ [Event.printed line] }

/-- `register_tt_models()` (source lines 12-43): `from vllm import
ModelRegistry` inside the function body, then the single
`ModelRegistry.register_model` call with the hardcoded strings, then the
confirmation `print`.  Any failure propagates to the caller. -/
def register_tt_models (e : ExtEnv) (s : PState) : PState × Option PyErr :=
  if e.importOk then
    match registerModel e ttModelName ttModelPath s with
    | (s1, some err) => (s1, some err)
    | (s1, none) => (printLine confirmationLine s1, none)
  else
    (s, some PyErr.importError)

/-- `runpy.run_module moduleName run_name`: records a launch event in which
the launched module observes the current process-global `sys.argv`. -/
def run_module (moduleName runName : String) (s : PState) : PState :=
  { s with events := s.events ++ [Event.launch moduleName runName s.argv] }

/-- The `if __name__ == '__main__'` block (source lines 46-54):
`register_tt_models()` first; only if it returns normally,
`runpy.run_module("vllm.entrypoints.openai.api_server", run_name="__main__")`. -/
def script_main (e : ExtEnv) (s : PState) : PState × Option PyErr :=
  match register_tt_models e s with
  | (s1, some err) => (s1, some err)
  | (s1, none) => (run_module apiServerModule "__main__" s1, none)

/-- An external world in which the import and every registration succeed. -/
def envOk : ExtEnv := { importOk := true, registerRaises := fun _ _ => false }

/-- An external world in which the import succeeds but every registration
call raises. -/
def envRegFail : ExtEnv := { importOk := true, registerRaises := fun _ _ => true }

/-- An external world in which `from vllm import ModelRegistry` fails. -/
def envNoImport : ExtEnv := { importOk := false, registerRaises := fun _ _ => false }

/-- The example argument vector from the spec:
`--model ~/models/Llama-3.1-8B-Instruct --port 8000 --max-model-len 65536`. -/
def exampleArgv : List String :=
  ["--model", "~/models/Llama-3.1-8B-Instruct", "--port", "8000",
   "--max-model-len", "65536"]

/-- Characterization of `register_tt_models` when the import succeeds and
the registration call does not raise. -/
theorem register_tt_models_ok (e : ExtEnv) (s : PState)
    (himp : e.importOk = true)
    (hreg : e.registerRaises ttModelName ttModelPath = false) :
    register_tt_models e s =
      ({ s with
          registry := (ttModelName, ttModelPath) :: s.registry,
          stdout := s.stdout ++ [confirmationLine],
          events := s.events ++
            [Event.registerCall ttModelName ttModelPath,
             Event.printed confirmationLine] }, none) := by
  simp [register_tt_models, registerModel, printLine, himp, hreg]

/-- Characterization of `register_tt_models` when the import succeeds but
the registration call raises. -/
theorem register_tt_models_regfail (e : ExtEnv) (s : PState)
    (himp : e.importOk = true)
    (hreg : e.registerRaises ttModelName ttModelPath = true) :
    register_tt_models e s =
      ({ s with events := s.events ++ [Event.registerCall ttModelName ttModelPath] },
       some (PyErr.registerError ttModelName ttModelPath)) := by
  simp [register_tt_models, registerModel, himp, hreg]

/-- Characterization of `register_tt_models` when the import fails. -/
theorem register_tt_models_noimport (e : ExtEnv) (s : PState)
    (himp : e.importOk = false) :
    register_tt_models e s = (s, some PyErr.importError) := by
  simp [register_tt_models, himp]

/-- The registrar never changes `sys.argv`. -/
theorem register_tt_models_argv (e : ExtEnv) (s : PState) :
    (register_tt_models e s).1.argv = s.argv := by
  rcases himp : e.importOk with _ | _
  · simp [register_tt_models_noimport e s himp]
  · rcases hreg : e.registerRaises ttModelName ttModelPath with _ | _
    · simp [register_tt_models_ok e s himp hreg]
    · simp [register_tt_models_regfail e s himp hreg]

/-- The registrar emits no launch event; only the main block does. -/
theorem register_tt_models_no_launch (e : ExtEnv) (argv : List String)
    (osEnv : List (String × String)) :
    (register_tt_models e (initState argv osEnv)).1.events.any Event.isLaunch = false := by
  rcases himp : e.importOk with _ | _
  · simp [register_tt_models_noimport e _ himp, initState]
  · rcases hreg : e.registerRaises ttModelName ttModelPath with _ | _
    · simp [register_tt_models_ok e _ himp hreg, initState, Event.isLaunch]
    · simp [register_tt_models_regfail e _ himp hreg, initState, Event.isLaunch]

/-- C1: When the import and the registration call succeed, `register_tt_models`
returns normally, its trace of registration calls is exactly one call per
entry of the hardcoded list `tt_model_entries`, in declared order with the
exact strings — in particular the single pair `("TTLlamaForCausalLM",
"models.tt_transformers.tt.generator_vllm:LlamaForCausalLM")` — no other
registration call is made, and afterwards the external registry maps that
exact name to that exact class path. -/
theorem C1_registrar_exact_calls (e : ExtEnv) (argv : List String)
    (osEnv : List (String × String))
    (himp : e.importOk = true)
    (hreg : e.registerRaises ttModelName ttModelPath = false) :
    (register_tt_models e (initState argv osEnv)).2 = none ∧
    (register_tt_models e (initState argv osEnv)).1.events.filter Event.isRegisterCall
      = tt_model_entries.map (fun q => Event.registerCall q.1 q.2) ∧
    (register_tt_models e (initState argv osEnv)).1.registry.lookup "TTLlamaForCausalLM"
      = some "models.tt_transformers.tt.generator_vllm:LlamaForCausalLM" := by
  rw [register_tt_models_ok e _ himp hreg]
  refine ⟨rfl, ?_, ?_⟩
  · simp [initState, tt_model_entries, Event.isRegisterCall]
  · simp [initState, List.lookup, ttModelName, ttModelPath]

/-- Witness for C1 at a concrete environment and argument vector. -/
theorem C1_witness :
    (register_tt_models envOk (initState [] [])).2 = none ∧
    (register_tt_models envOk (initState [] [])).1.events.filter Event.isRegisterCall
      = tt_model_entries.map (fun q => Event.registerCall q.1 q.2) ∧
    (register_tt_models envOk (initState [] [])).1.registry.lookup "TTLlamaForCausalLM"
      = some "models.tt_transformers.tt.generator_vllm:LlamaForCausalLM" :=
  C1_registrar_exact_calls envOk [] [] rfl rfl

/-- C2: For every argument vector (and environment), if the run of the main
block ever launches the external entrypoint, then registration returned
normally, and the trace is the completed registration trace followed by the
launch as its final event: the launch step is never reached before
registration has completed. -/
theorem C2_register_before_launch (e : ExtEnv) (argv : List String)
    (osEnv : List (String × String))
    (hlaunch : (script_main e (initState argv osEnv)).1.events.any Event.isLaunch = true) :
    (register_tt_models e (initState argv osEnv)).2 = none ∧
    (script_main e (initState argv osEnv)).1.events
      = (register_tt_models e (initState argv osEnv)).1.events
        ++ [Event.launch apiServerModule "__main__" argv] := by
  rcases himp : e.importOk with _ | _
  · rw [script_main, register_tt_models_noimport e _ himp] at hlaunch
    simp [initState] at hlaunch
  · rcases hreg : e.registerRaises ttModelName ttModelPath with _ | _
    · rw [script_main, register_tt_models_ok e _ himp hreg]
      simp [run_module, initState]
    · rw [script_main, register_tt_models_regfail e _ himp hreg] at hlaunch
      simp [initState, Event.isLaunch] at hlaunch

/-- Witness for C2 at a concrete environment, with the empty argument vector. -/
theorem C2_witness :
    (register_tt_models envOk (initState [] [])).2 = none ∧
    (script_main envOk (initState [] [])).1.events
      = (register_tt_models envOk (initState [] [])).1.events
        ++ [Event.launch apiServerModule "__main__" []] :=
  C2_register_before_launch envOk [] [] (by decide)

/-- C3: For every argument vector, the successful run launches the external
entrypoint exactly once, and the launched module observes exactly the
process's argument vector, unchanged and in order. -/
theorem C3_argv_forwarded (e : ExtEnv) (argv : List String)
    (osEnv : List (String × String))
    (himp : e.importOk = true)
    (hreg : e.registerRaises ttModelName ttModelPath = false) :
    (script_main e (initState argv osEnv)).1.events.filter Event.isLaunch
      = [Event.launch apiServerModule "__main__" argv] := by
  rw [script_main, register_tt_models_ok e _ himp hreg]
  simp [run_module, initState, Event.isLaunch]

/-- Witness for C3 at the spec's example input
`--model ~/models/Llama-3.1-8B-Instruct --port 8000 --max-model-len 65536`:
the entrypoint observes exactly those arguments in that order. -/
theorem C3_witness :
    (script_main envOk (initState exampleArgv [])).1.events.filter Event.isLaunch
      = [Event.launch apiServerModule "__main__" exampleArgv] :=
  C3_argv_forwarded envOk exampleArgv [] rfl rfl

/-- C4: If the external registry raises on the registration call, the run of
the main block stops there: the only event is the failing registration call
itself (no later entry is attempted, no confirmation printed, no launch), the
registry and standard output are unchanged, and the raised error is the
script's result — it propagates uncaught to the caller. -/
theorem C4_register_raise_propagates (e : ExtEnv) (argv : List String)
    (osEnv : List (String × String))
    (himp : e.importOk = true)
    (hreg : e.registerRaises ttModelName ttModelPath = true) :
    script_main e (initState argv osEnv)
      = ({ initState argv osEnv with
            events := [Event.registerCall ttModelName ttModelPath] },
         some (PyErr.registerError ttModelName ttModelPath)) ∧
    (script_main e (initState argv osEnv)).1.events.any Event.isLaunch = false := by
  rw [script_main, register_tt_models_regfail e _ himp hreg]
  refine ⟨?_, ?_⟩
  · simp [initState]
  · simp [initState, Event.isLaunch]

/-- Witness for C4 at a concrete environment whose registry raises. -/
theorem C4_witness :
    script_main envRegFail (initState [] [])
      = ({ initState [] [] with
            events := [Event.registerCall ttModelName ttModelPath] },
         some (PyErr.registerError ttModelName ttModelPath)) ∧
    (script_main envRegFail (initState [] [])).1.events.any Event.isLaunch = false :=
  C4_register_raise_propagates envRegFail [] [] rfl rfl

/-- C5: On a successful run, the main block returns normally and its final
step is exactly `run_module "vllm.entrypoints.openai.api_server"` under the
run name `"__main__"`, applied to a state whose argument vector is still the
process's original one: the entrypoint runs as if started from the command
line, reading the process-global argument vector itself, with no parsing,
validation, or transformation by the launcher. -/
theorem C5_launch_as_main (e : ExtEnv) (argv : List String)
    (osEnv : List (String × String))
    (himp : e.importOk = true)
    (hreg : e.registerRaises ttModelName ttModelPath = false) :
    (script_main e (initState argv osEnv)).2 = none ∧
    ∃ s1 : PState, s1.argv = argv ∧
      (script_main e (initState argv osEnv)).1
        = run_module apiServerModule "__main__" s1 := by
  rw [script_main, register_tt_models_ok e _ himp hreg]
  refine ⟨rfl, (register_tt_models e (initState argv osEnv)).1, ?_, ?_⟩
  · simp [register_tt_models_argv, initState]
  · rw [register_tt_models_ok e _ himp hreg]

/-- Witness for C5 at a concrete environment and the spec's example input. -/
theorem C5_witness :
    (script_main envOk (initState exampleArgv [])).2 = none ∧
    ∃ s1 : PState, s1.argv = exampleArgv ∧
      (script_main envOk (initState exampleArgv [])).1
        = run_module apiServerModule "__main__" s1 :=
  C5_launch_as_main envOk exampleArgv [] rfl rfl

/-- C6: The script's own standard output is exactly one confirmation line
when registration succeeded, and empty otherwise — whatever the external
server writes afterwards is outside the script and not modelled. -/
theorem C6_stdout (e : ExtEnv) (argv : List String)
    (osEnv : List (String × String)) :
    (script_main e (initState argv osEnv)).1.stdout
      = if (script_main e (initState argv osEnv)).2 = none
        then [confirmationLine] else [] := by
  rcases himp : e.importOk with _ | _
  · rw [script_main, register_tt_models_noimport e _ himp]
    simp [initState]
  · rcases hreg : e.registerRaises ttModelName ttModelPath with _ | _
    · rw [script_main, register_tt_models_ok e _ himp hreg]
      simp [run_module, initState]
    · rw [script_main, register_tt_models_regfail e _ himp hreg]
      simp [initState]

/-- C7: For every environment, the registration calls the registrar issues
are the first `k` entries of the hardcoded list, in declared order, each
attempted exactly once (no retry, no reordering, no fallback); and the final
registry consists exactly of the attempted entries whose own call did not
raise — a failure never removes an earlier successful registration
(no rollback). -/
theorem C7_in_order_no_rollback (e : ExtEnv) (argv : List String)
    (osEnv : List (String × String)) :
    ∃ k : Nat,
      (register_tt_models e (initState argv osEnv)).1.events.filter Event.isRegisterCall
        = (tt_model_entries.take k).map (fun q => Event.registerCall q.1 q.2) ∧
      (register_tt_models e (initState argv osEnv)).1.registry
        = ((tt_model_entries.take k).filter
            (fun q => (register_tt_models e (initState argv osEnv)).2
                != some (PyErr.registerError q.1 q.2))).reverse := by
  rcases himp : e.importOk with _ | _
  · refine ⟨0, ?_, ?_⟩ <;> rw [register_tt_models_noimport e _ himp] <;> simp [initState]
  · rcases hreg : e.registerRaises ttModelName ttModelPath with _ | _
    · refine ⟨1, ?_, ?_⟩ <;> rw [register_tt_models_ok e _ himp hreg] <;>
        simp [initState, tt_model_entries, Event.isRegisterCall]
    · refine ⟨1, ?_, ?_⟩ <;> rw [register_tt_models_regfail e _ himp hreg] <;>
        simp [initState, tt_model_entries, Event.isRegisterCall]

/-- C8: The `vllm` import happens inside `register_tt_models` itself; if it
fails, `register_tt_models` raises with the process state completely
untouched — no registration call was made, nothing printed, no launch — and
the main block propagates that same error to the caller exactly like a
registration failure, never reaching the launch step. -/
theorem C8_import_failure (e : ExtEnv) (argv : List String)
    (osEnv : List (String × String))
    (himp : e.importOk = false) :
    register_tt_models e (initState argv osEnv)
      = (initState argv osEnv, some PyErr.importError) ∧
    script_main e (initState argv osEnv)
      = (initState argv osEnv, some PyErr.importError) := by
  refine ⟨register_tt_models_noimport e _ himp, ?_⟩
  rw [script_main, register_tt_models_noimport e _ himp]

/-- Witness for C8 at a concrete environment whose import fails. -/
theorem C8_witness :
    register_tt_models envNoImport (initState [] [])
      = (initState [] [], some PyErr.importError) ∧
    script_main envNoImport (initState [] [])
      = (initState [] [], some PyErr.importError) :=
  C8_import_failure envNoImport [] [] rfl

/-- C9: The registrar is deterministic and independent of the process
argument vector and of the process environment: two runs under the same
external world, whatever their argument vectors and environment variables,
produce identical registration-call traces, identical standard output,
identical registry contents, and the identical outcome. -/
theorem C9_deterministic (e : ExtEnv) (a1 a2 : List String)
    (v1 v2 : List (String × String)) :
    (register_tt_models e (initState a1 v1)).1.events
      = (register_tt_models e (initState a2 v2)).1.events ∧
    (register_tt_models e (initState a1 v1)).1.stdout
      = (register_tt_models e (initState a2 v2)).1.stdout ∧
    (register_tt_models e (initState a1 v1)).1.registry
      = (register_tt_models e (initState a2 v2)).1.registry ∧
    (register_tt_models e (initState a1 v1)).2
      = (register_tt_models e (initState a2 v2)).2 := by
  rcases himp : e.importOk with _ | _
  · rw [register_tt_models_noimport e _ himp, register_tt_models_noimport e _ himp]
    exact ⟨rfl, rfl, rfl, rfl⟩
  · rcases hreg : e.registerRaises ttModelName ttModelPath with _ | _
    · rw [register_tt_models_ok e _ himp hreg, register_tt_models_ok e _ himp hreg]
      exact ⟨rfl, rfl, rfl, rfl⟩
    · rw [register_tt_models_regfail e _ himp hreg,
          register_tt_models_regfail e _ himp hreg]
      exact ⟨rfl, rfl, rfl, rfl⟩

/-- C10: The registrar never modifies the argument vector: after
`register_tt_models` it still equals the vector the process started with,
and every launch event the main block ever emits carries exactly that
original vector. -/
theorem C10_argv_untouched (e : ExtEnv) (argv : List String)
    (osEnv : List (String × String)) :
    (register_tt_models e (initState argv osEnv)).1.argv = argv ∧
    ∀ m rn a, Event.launch m rn a ∈ (script_main e (initState argv osEnv)).1.events
      → a = argv := by
  refine ⟨register_tt_models_argv e _, ?_⟩
  rcases himp : e.importOk with _ | _
  · intro m rn a h
    rw [script_main, register_tt_models_noimport e _ himp] at h
    simp [initState] at h
  · rcases hreg : e.registerRaises ttModelName ttModelPath with _ | _
    · intro m rn a h
      rw [script_main, register_tt_models_ok e _ himp hreg] at h
      simp [run_module, initState] at h
      exact h.2.2
    · intro m rn a h
      rw [script_main, register_tt_models_regfail e _ himp hreg] at h
      simp [initState] at h

/-- Witness for C10 at a concrete environment and the spec's example input. -/
theorem C10_witness :
    (register_tt_models envOk (initState exampleArgv [])).1.argv = exampleArgv ∧
    ∀ m rn a,
      Event.launch m rn a ∈ (script_main envOk (initState exampleArgv [])).1.events
        → a = exampleArgv :=
  C10_argv_untouched envOk exampleArgv []

end StartVllmServer
